import Mathlib

/-!
Shallow embedding of the two MapBiomas analysis scripts
(`src/CIC_2025/scripts/mapbiomas_csv.py` and
`src/CIC_2025/scripts/mapbiomas_mudancas_grafico_animado.py`).

Modelling conventions:
* a raster band is a `List Int` of pixel class codes, as read by `src.read(1)`;
* `numpy.unique(_, return_counts=True)` becomes `uniqueCounts` (distinct
  values in ascending order with multiplicities);
* Python floats become exact rationals `ℚ`; the arithmetic performed by the
  scripts (`count / total * 100`, linear interpolation) is modelled exactly;
* pandas DataFrames become lists of records, one structure per script table;
* the filesystem is a function `Int → Option (List Int)` sending a year to
  the pixels of its raster when the formatted path exists, `none` otherwise;
* `load_legend`'s I/O and JSON parsing is abstracted as an
  `Option Legend` argument: `none` models any exception caught by its
  `try`/`except` block.
-/

set_option linter.unusedVariables false

namespace MapBiomas

/-- Legend entry for one class code: the `PT` display name and `HEX_COL`
color of the MapBiomas JSON legend document. -/
structure LegendEntry where
  pt : String
  hexCol : String
deriving Repr, DecidableEq

/-- Legend mapping: a JSON object keyed by class-code string, modelled as an
association list from code string to entry. -/
abbrev Legend := List (String × LegendEntry)

/-- Model of `load_legend` (both scripts): the JSON read either succeeds with
a parsed mapping (`some l`) or raises (`none`); the `except` branch prints the
error and returns the empty dict `{}`. -/
def load_legend (parsed : Option Legend) : Legend :=
  match parsed with
  | some l => l
  | none => []

/-- Model of `numpy.unique(raster_data, return_counts=True)`: distinct pixel
values sorted ascending, each paired with its number of occurrences. -/
def uniqueCounts (raster : List Int) : List (Int × Nat) :=
  (List.insertionSort (fun a b => a ≤ b) raster.dedup).map (fun v => (v, raster.count v))

/-- Row of the CSV-script table: columns `ano`, `classe`, `num_px`,
`porc_rel` of the DataFrame built by `process_raster_for_csv`. -/
structure CsvRow where
  ano : Int
  classe : Int
  num_px : Nat
  porc_rel : ℚ
deriving Repr, DecidableEq

/-- The filtered `(unique_filtered, counts_filtered)` pairs shared by both
tabulators: the unique value counts with the no-data value 0 dropped. -/
def validCounts (raster : List Int) : List (Int × Nat) :=
  (uniqueCounts raster).filter (fun p => p.1 != 0)

/-- The `total_pixels` value of both tabulators: sum of the counts remaining
after the no-data value 0 is filtered out. -/
def totalValidPixels (raster : List Int) : Nat :=
  ((validCounts raster).map (fun p => p.2)).sum

/-- Model of `process_raster_for_csv` (mapbiomas_csv.py, lines 27-65): unique
value counts, drop value 0, percentages over the valid total, sort by
`num_px` descending.  The `legend_data` parameter is accepted but never used,
exactly as in the source. -/
def process_raster_for_csv (raster : List Int) (year : Int) (legend_data : Legend) : List CsvRow :=
  let filtered := validCounts raster
  let total : Nat := totalValidPixels raster
  let rows := filtered.map (fun p =>
    { ano := year, classe := p.1, num_px := p.2,
      porc_rel := ((p.2 : ℚ) / (total : ℚ)) * 100 : CsvRow })
  List.insertionSort (fun a b => b.num_px ≤ a.num_px) rows

/-- The sort key of the CSV script's final `sort_values(['ano', 'num_px'],
ascending=[True, False])` (line 106), as a total preorder on rows. -/
def csvOrder (a b : CsvRow) : Prop :=
  a.ano < b.ano ∨ (a.ano = b.ano ∧ b.num_px ≤ a.num_px)

instance : DecidableRel csvOrder := fun a b =>
  inferInstanceAs (Decidable (a.ano < b.ano ∨ (a.ano = b.ano ∧ b.num_px ≤ a.num_px)))

instance : IsTotal CsvRow csvOrder :=
  ⟨by intro a b; unfold csvOrder; omega⟩

instance : IsTrans CsvRow csvOrder :=
  ⟨by intro a b c; unfold csvOrder; omega⟩

/-- Model of the CSV script's module-level year loop plus concatenation and
final sort (mapbiomas_csv.py, lines 80-106): years whose path is missing are
skipped (`os.path.exists` is the `fs` argument); the concatenated table is
sorted by `ano` ascending then `num_px` descending. -/
def aggregate_csv (fs : Int → Option (List Int)) (years : List Int) (legend_data : Legend) :
    List CsvRow :=
  let all_dataframes := years.filterMap (fun y =>
    (fs y).map (fun r => process_raster_for_csv r y legend_data))
  List.insertionSort csvOrder all_dataframes.flatten

/-- Model of `final_df.to_csv` (mapbiomas_csv.py, line 124): the written
delimited text, as a list of cell rows, with the header and the fixed column
order `ano, classe, num_px, porc_rel` of the constructed DataFrame. -/
def csv_output (fs : Int → Option (List Int)) (years : List Int) (legend_data : Legend) :
    List (List String) :=
  ["ano", "classe", "num_px", "porc_rel"] ::
    (aggregate_csv fs years legend_data).map (fun r =>
      [toString r.ano, toString r.classe, toString r.num_px, toString r.porc_rel])

/-- Row of the chart-script per-year table: columns `classe`, `cont_px`,
`porcent`, `nome_pt`, `cor_hex` of `read_raster_and_get_value_counts`. -/
structure ChartRow where
  classe : Int
  cont_px : Nat
  porcent : ℚ
  nome_pt : String
  cor_hex : String
deriving Repr, DecidableEq

/-- The row built by `read_raster_and_get_value_counts` for one filtered
`(value, count)` pair (animated-chart script, lines 79-95): legend lookup by
`str(code)`, placeholder name `"Classe {code} (não encontrada)"` and gray
`#808080` when the code is absent from the legend. -/
def chartRowOf (legend_data : Legend) (total : Nat) (p : Int × Nat) : ChartRow :=
  match legend_data.lookup (toString p.1) with
  | some e =>
    { classe := p.1, cont_px := p.2, porcent := ((p.2 : ℚ) / (total : ℚ)) * 100,
      nome_pt := e.pt, cor_hex := e.hexCol }
  | none =>
    { classe := p.1, cont_px := p.2, porcent := ((p.2 : ℚ) / (total : ℚ)) * 100,
      nome_pt := "Classe " ++ toString p.1 ++ " (não encontrada)",
      cor_hex := "#808080" }

/-- Model of `read_raster_and_get_value_counts` (animated-chart script, lines
48-100): unique value counts, drop 0, percentages over the valid total, legend
lookup by `str(code)` with placeholder name and gray color when absent, sort
by `cont_px` descending. -/
def read_raster_and_get_value_counts (raster : List Int) (legend_data : Legend) :
    List ChartRow :=
  let filtered := validCounts raster
  let total : Nat := totalValidPixels raster
  let rows := filtered.map (chartRowOf legend_data total)
  List.insertionSort (fun a b => b.cont_px ≤ a.cont_px) rows

/-- Row of the unified chart table: columns `year`, `classe`, `porcent`,
`nome_pt`, `cor_hex`, `rank` built by `create_unified_dataframe`. -/
structure URow where
  year : Int
  classe : Int
  porcent : ℚ
  nome_pt : String
  cor_hex : String
  rank : Nat
deriving Repr, DecidableEq

/-- The `all_classes` set of `create_unified_dataframe` (lines 117-119): the
union over all per-year tables of the first `top_n` classes of each, as a
duplicate-free list. -/
def allClasses (dataframes : List (List ChartRow)) (top_n : Nat) : List Int :=
  ((dataframes.map (fun df => (df.take top_n).map (fun r => r.classe))).flatten).dedup

/-- The backfill search of `create_unified_dataframe` (lines 143-156): scan
the per-year tables in order and return the first row of the first table that
contains class `c`. -/
def findClassRow (dataframes : List (List ChartRow)) (c : Int) : Option ChartRow :=
  match dataframes with
  | [] => none
  | df :: rest =>
    match df.find? (fun r => r.classe == c) with
    | some r => some r
    | none => findClassRow rest c

/-- The single record appended by `create_unified_dataframe` for a given
`(year, df)` pair and class `c` (lines 128-167): present classes keep their
percent and get a rank from the year's `top_n` head; absent classes get
percent 0, rank `top_n + 1`, and name/color backfilled from the first table
containing the class, or a generic placeholder when no table does. -/
def unifiedRow (year : Int) (df : List ChartRow) (dataframes : List (List ChartRow))
    (top_n : Nat) (c : Int) : URow :=
  let top_classes := (df.take top_n).map (fun r => r.classe)
  match df.find? (fun r => r.classe == c) with
  | some row =>
    { year := year, classe := c, porcent := row.porcent, nome_pt := row.nome_pt,
      cor_hex := row.cor_hex,
      rank := if c ∈ top_classes then top_classes.indexOf c + 1 else top_n + 1 }
  | none =>
    match findClassRow dataframes c with
    | some other_row =>
      { year := year, classe := c, porcent := 0, nome_pt := other_row.nome_pt,
        cor_hex := other_row.cor_hex, rank := top_n + 1 }
    | none =>
      { year := year, classe := c, porcent := 0, nome_pt := "Classe " ++ toString c,
        cor_hex := "#808080", rank := top_n + 1 }

/-- Model of `create_unified_dataframe` (lines 103-169): for each
`(year, df)` pair of `zip(years, dataframes)` and each class of
`all_classes`, append the corresponding record. -/
def create_unified_dataframe (dataframes : List (List ChartRow)) (years : List Int)
    (top_n : Nat) : List URow :=
  let classes := allClasses dataframes top_n
  ((years.zip dataframes).map (fun p => classes.map (unifiedRow p.1 p.2 dataframes top_n))).flatten

/-- Model of the chart script's module-level year loop (lines 297-310): the
list of per-year tables for the years whose raster path exists. -/
def chart_dataframes (fs : Int → Option (List Int)) (years : List Int) (legend_data : Legend) :
    List (List ChartRow) :=
  years.filterMap (fun y => (fs y).map (fun r => read_raster_and_get_value_counts r legend_data))

/-- The unified table the chart script builds at module level (line 313):
note the full `years` list is zipped against the possibly shorter list of
tables of existing files. -/
def chart_unified (fs : Int → Option (List Int)) (years : List Int) (legend_data : Legend)
    (top_n : Nat) : List URow :=
  create_unified_dataframe (chart_dataframes fs years legend_data) years top_n

/-- Model of Python `int(q)` on a nonintegral float: truncation toward zero
(`Int.tdiv` is T-division and `q.den` is positive). -/
def pyInt (q : ℚ) : Int := Int.tdiv q.num (q.den : Int)

/-- The `all_years` frame-time list of `create_smooth_animation` (lines
189-198): each year except the last followed by `frames_per_year - 1` evenly
spaced fractional times, then the final year.  (On an empty `years` the
Python source would raise an IndexError at `years[-1]`; the module always
passes the nonempty 1985..2024 list.) -/
def allFrameYears (years : List Int) (frames_per_year : Nat) : List ℚ :=
  (years.dropLast.map (fun y =>
      (y : ℚ) :: (List.range (frames_per_year - 1)).map (fun j =>
        (y : ℚ) + ((j : ℚ) + 1) * (1 / (frames_per_year : ℚ))))).flatten
    ++ (years.getLast?.elim [] (fun y => [(y : ℚ)]))

/-- The per-frame data of `create_smooth_animation` (lines 200-226): an exact
year copies that year's unified rows; a fractional time interpolates each
floor-year row's `porcent` toward the next year's row of the same class when
one exists, leaving every other column untouched. -/
def interpFrame (unified_df : List URow) (years : List Int) (q : ℚ) : List URow :=
  if q ∈ years.map (fun y => (y : ℚ)) then
    unified_df.filter (fun r => decide ((r.year : ℚ) = q))
  else
    let year_prev := pyInt q
    let year_next := year_prev + 1
    let data_prev := unified_df.filter (fun r => r.year == year_prev)
    let data_next := unified_df.filter (fun r => r.year == year_next)
    let alpha := q - (year_prev : ℚ)
    data_prev.map (fun row =>
      match data_next.find? (fun s => s.classe == row.classe) with
      | some s => { row with porcent := row.porcent * (1 - alpha) + s.porcent * alpha }
      | none => row)

/-- The `interpolated_data` list of `create_smooth_animation`: one data table
per frame time. -/
def interpolated_data (unified_df : List URow) (years : List Int) (frames_per_year : Nat) :
    List (List URow) :=
  (allFrameYears years frames_per_year).map (interpFrame unified_df years)

/-- The bars drawn by the `update` closure for one frame (lines 234-244):
the frame's rows sorted by `porcent` descending, first `top_n` kept. -/
def frameBars (unified_df : List URow) (years : List Int) (q : ℚ) (top_n : Nat) : List URow :=
  (List.insertionSort (fun a b : URow => b.porcent ≤ a.porcent)
    (interpFrame unified_df years q)).take top_n

/-! ### Basic lemmas about the tabulators -/

theorem mem_uniqueCounts {raster : List Int} {p : Int × Nat} :
    p ∈ uniqueCounts raster ↔ p.1 ∈ raster ∧ p.2 = raster.count p.1 := by
  unfold uniqueCounts
  rw [List.mem_map]
  constructor
  · rintro ⟨v, hv, rfl⟩
    have hv' : v ∈ raster.dedup := (List.perm_insertionSort _ _).mem_iff.mp hv
    exact ⟨List.mem_dedup.mp hv', rfl⟩
  · rintro ⟨h1, h2⟩
    refine ⟨p.1, (List.perm_insertionSort _ _).mem_iff.mpr (List.mem_dedup.mpr h1), ?_⟩
    obtain ⟨a, b⟩ := p
    simp only at h2
    rw [h2]

theorem mem_validCounts {raster : List Int} {p : Int × Nat} :
    p ∈ validCounts raster ↔ p.1 ∈ raster ∧ p.2 = raster.count p.1 ∧ p.1 ≠ 0 := by
  unfold validCounts
  rw [List.mem_filter, mem_uniqueCounts]
  simp [and_assoc]

theorem totalValidPixels_pos {raster : List Int} (h : ∃ v ∈ raster, v ≠ 0) :
    0 < totalValidPixels raster := by
  obtain ⟨v, hv, hv0⟩ := h
  rw [Nat.pos_iff_ne_zero]
  intro hz
  unfold totalValidPixels at hz
  rw [List.sum_eq_zero_iff] at hz
  have hmem : (v, raster.count v) ∈ validCounts raster :=
    mem_validCounts.mpr ⟨hv, rfl, hv0⟩
  have hcv := hz (raster.count v) (List.mem_map.mpr ⟨_, hmem, rfl⟩)
  simp only at hcv
  exact absurd (List.count_pos_iff.mpr hv) (by omega)

theorem mem_process_raster_for_csv {raster : List Int} {year : Int} {legend_data : Legend}
    {row : CsvRow} :
    row ∈ process_raster_for_csv raster year legend_data ↔
      ∃ p ∈ validCounts raster,
        row = { ano := year, classe := p.1, num_px := p.2,
                porc_rel := ((p.2 : ℚ) / (totalValidPixels raster : ℚ)) * 100 } := by
  simp only [process_raster_for_csv]
  rw [(List.perm_insertionSort _ _).mem_iff, List.mem_map]
  constructor
  · rintro ⟨p, hp, rfl⟩; exact ⟨p, hp, rfl⟩
  · rintro ⟨p, hp, rfl⟩; exact ⟨p, hp, rfl⟩

theorem mem_read_raster {raster : List Int} {legend_data : Legend} {row : ChartRow} :
    row ∈ read_raster_and_get_value_counts raster legend_data ↔
      ∃ p ∈ validCounts raster, row = chartRowOf legend_data (totalValidPixels raster) p := by
  simp only [read_raster_and_get_value_counts]
  rw [(List.perm_insertionSort _ _).mem_iff, List.mem_map]
  constructor
  · rintro ⟨p, hp, rfl⟩; exact ⟨p, hp, rfl⟩
  · rintro ⟨p, hp, rfl⟩; exact ⟨p, hp, rfl⟩

theorem chartRowOf_classe (legend_data : Legend) (total : Nat) (p : Int × Nat) :
    (chartRowOf legend_data total p).classe = p.1 := by
  unfold chartRowOf
  cases legend_data.lookup (toString p.1) <;> rfl

theorem chartRowOf_cont_px (legend_data : Legend) (total : Nat) (p : Int × Nat) :
    (chartRowOf legend_data total p).cont_px = p.2 := by
  unfold chartRowOf
  cases legend_data.lookup (toString p.1) <;> rfl

theorem chartRowOf_porcent (legend_data : Legend) (total : Nat) (p : Int × Nat) :
    (chartRowOf legend_data total p).porcent = ((p.2 : ℚ) / (total : ℚ)) * 100 := by
  unfold chartRowOf
  cases legend_data.lookup (toString p.1) <;> rfl

theorem sum_validCounts_porcent {raster : List Int} (h : ∃ v ∈ raster, v ≠ 0) :
    ((validCounts raster).map
      (fun p => ((p.2 : ℚ) / (totalValidPixels raster : ℚ)) * 100)).sum = 100 := by
  have hTpos : 0 < totalValidPixels raster := totalValidPixels_pos h
  have hT : ((totalValidPixels raster : ℚ)) ≠ 0 := by
    exact_mod_cast Nat.pos_iff_ne_zero.mp hTpos
  have hcongr : (validCounts raster).map (fun p : Int × Nat =>
      ((p.2 : ℚ) / (totalValidPixels raster : ℚ)) * 100) =
      (validCounts raster).map (fun p : Int × Nat =>
        ((p.2 : ℚ)) * (100 / (totalValidPixels raster : ℚ))) := by
    apply List.map_congr_left
    intro p _
    field_simp
  rw [hcongr, List.sum_map_mul_right]
  have hcast : ((validCounts raster).map (fun p : Int × Nat => ((p.2 : ℚ)))).sum =
      ((totalValidPixels raster : ℚ)) := by
    unfold totalValidPixels
    rw [Nat.cast_list_sum, List.map_map]
    rfl
  rw [hcast]
  field_simp

theorem mem_aggregate_csv {fs : Int → Option (List Int)} {years : List Int}
    {legend_data : Legend} {row : CsvRow} :
    row ∈ aggregate_csv fs years legend_data ↔
      ∃ y ∈ years, ∃ r, fs y = some r ∧ row ∈ process_raster_for_csv r y legend_data := by
  simp only [aggregate_csv]
  rw [(List.perm_insertionSort _ _).mem_iff, List.mem_flatten]
  constructor
  · rintro ⟨df, hdf, hrow⟩
    rw [List.mem_filterMap] at hdf
    obtain ⟨y, hy, hmap⟩ := hdf
    cases hfs : fs y with
    | none => rw [hfs] at hmap; simp at hmap
    | some r =>
      rw [hfs] at hmap
      simp at hmap
      exact ⟨y, hy, r, hfs, hmap ▸ hrow⟩
  · rintro ⟨y, hy, r, hfs, hrow⟩
    refine ⟨process_raster_for_csv r y legend_data, ?_, hrow⟩
    rw [List.mem_filterMap]
    exact ⟨y, hy, by rw [hfs]; rfl⟩

theorem ano_of_mem_process {raster : List Int} {year : Int} {legend_data : Legend}
    {row : CsvRow} (h : row ∈ process_raster_for_csv raster year legend_data) :
    row.ano = year := by
  obtain ⟨p, _, rfl⟩ := mem_process_raster_for_csv.mp h
  rfl

/-! ### Claim theorems: CSV path -/

/-- C9: `process_raster_for_csv` never reads its `legend_data` argument, so
the CSV path's tabulation returns identical tables under any two legends. -/
theorem C9_csv_tabulation_legend_independent (raster : List Int) (year : Int)
    (l1 l2 : Legend) :
    process_raster_for_csv raster year l1 = process_raster_for_csv raster year l2 := rfl

/-- C1: for a raster with at least one non-zero pixel, the percentages of the
YearTable produced by either Raster Tabulator implementation —
`process_raster_for_csv` (CSV script) and `read_raster_and_get_value_counts`
(chart script) — sum to exactly 100 (the model computes in exact rationals,
so the 1e-6 relative tolerance is met with exact equality), and in both the
pixel counts sum to the `total_pixels` value used to compute the
percentages. -/
theorem C1_yearTable_sums (raster : List Int) (year : Int) (legend_data : Legend)
    (h : ∃ v ∈ raster, v ≠ 0) :
    ((process_raster_for_csv raster year legend_data).map (fun r => r.porc_rel)).sum = 100 ∧
    ((process_raster_for_csv raster year legend_data).map (fun r => r.num_px)).sum =
      totalValidPixels raster ∧
    ((read_raster_and_get_value_counts raster legend_data).map (fun r => r.porcent)).sum =
      100 ∧
    ((read_raster_and_get_value_counts raster legend_data).map (fun r => r.cont_px)).sum =
      totalValidPixels raster := by
  refine ⟨?_, ?_, ?_, ?_⟩
  · simp only [process_raster_for_csv]
    have hperm := (List.perm_insertionSort (fun a b : CsvRow => b.num_px ≤ a.num_px)
      ((validCounts raster).map (fun p =>
        { ano := year, classe := p.1, num_px := p.2,
          porc_rel := ((p.2 : ℚ) / (totalValidPixels raster : ℚ)) * 100 : CsvRow }))).map
      (fun r : CsvRow => r.porc_rel)
    rw [hperm.sum_eq, List.map_map]
    exact sum_validCounts_porcent h
  · simp only [process_raster_for_csv]
    have hperm := (List.perm_insertionSort (fun a b : CsvRow => b.num_px ≤ a.num_px)
      ((validCounts raster).map (fun p =>
        { ano := year, classe := p.1, num_px := p.2,
          porc_rel := ((p.2 : ℚ) / (totalValidPixels raster : ℚ)) * 100 : CsvRow }))).map
      (fun r : CsvRow => r.num_px)
    rw [hperm.sum_eq, List.map_map]
    rfl
  · simp only [read_raster_and_get_value_counts]
    have hperm := (List.perm_insertionSort (fun a b : ChartRow => b.cont_px ≤ a.cont_px)
      ((validCounts raster).map
        (chartRowOf legend_data (totalValidPixels raster)))).map
      (fun r : ChartRow => r.porcent)
    rw [hperm.sum_eq, List.map_map]
    have hcongr : (validCounts raster).map ((fun r : ChartRow => r.porcent) ∘
        chartRowOf legend_data (totalValidPixels raster)) =
        (validCounts raster).map
          (fun p => ((p.2 : ℚ) / (totalValidPixels raster : ℚ)) * 100) := by
      apply List.map_congr_left
      intro p _
      simp [Function.comp, chartRowOf_porcent]
    rw [hcongr]
    exact sum_validCounts_porcent h
  · simp only [read_raster_and_get_value_counts]
    have hperm := (List.perm_insertionSort (fun a b : ChartRow => b.cont_px ≤ a.cont_px)
      ((validCounts raster).map
        (chartRowOf legend_data (totalValidPixels raster)))).map
      (fun r : ChartRow => r.cont_px)
    rw [hperm.sum_eq, List.map_map]
    have hcongr : (validCounts raster).map ((fun r : ChartRow => r.cont_px) ∘
        chartRowOf legend_data (totalValidPixels raster)) =
        (validCounts raster).map (fun p => p.2) := by
      apply List.map_congr_left
      intro p _
      simp [Function.comp, chartRowOf_cont_px]
    rw [hcongr]
    rfl

/-- C1 witness: the spec's own scenario raster `[0, 0, 3, 3, 3, 4]`, through
both tabulators. -/
theorem C1_yearTable_sums_witness :
    ((process_raster_for_csv [0, 0, 3, 3, 3, 4] 2000 []).map (fun r => r.porc_rel)).sum = 100 ∧
    ((process_raster_for_csv [0, 0, 3, 3, 3, 4] 2000 []).map (fun r => r.num_px)).sum =
      totalValidPixels [0, 0, 3, 3, 3, 4] ∧
    ((read_raster_and_get_value_counts [0, 0, 3, 3, 3, 4] []).map (fun r => r.porcent)).sum =
      100 ∧
    ((read_raster_and_get_value_counts [0, 0, 3, 3, 3, 4] []).map (fun r => r.cont_px)).sum =
      totalValidPixels [0, 0, 3, 3, 3, 4] :=
  C1_yearTable_sums [0, 0, 3, 3, 3, 4] 2000 [] ⟨3, by decide, by decide⟩

/-- C4: the aggregated CSV table is sorted by the `csvOrder` key — `ano`
ascending, ties broken by `num_px` descending — and the written file is the
header `ano, classe, num_px, porc_rel` followed by one line per row with the
cells in exactly that column order. -/
theorem C4_csv_sorted_and_column_order (fs : Int → Option (List Int)) (years : List Int)
    (legend_data : Legend) :
    List.Sorted csvOrder (aggregate_csv fs years legend_data) ∧
    csv_output fs years legend_data =
      ["ano", "classe", "num_px", "porc_rel"] ::
        (aggregate_csv fs years legend_data).map (fun r =>
          [toString r.ano, toString r.classe, toString r.num_px, toString r.porc_rel]) := by
  constructor
  · simp only [aggregate_csv]
    exact List.sorted_insertionSort csvOrder _
  · rfl

/-- C6: a year whose raster path does not exist on the filesystem is skipped
by the CSV aggregator, and the output contains no rows for that year. -/
theorem C6_missing_year_has_no_rows (fs : Int → Option (List Int)) (years : List Int)
    (legend_data : Legend) (y : Int) (hfs : fs y = none) :
    (aggregate_csv fs years legend_data).filter (fun r => r.ano == y) = [] := by
  rw [List.filter_eq_nil_iff]
  intro row hrow
  obtain ⟨y', _, r, hfs', hmem⟩ := mem_aggregate_csv.mp hrow
  have hano : row.ano = y' := ano_of_mem_process hmem
  simp only [beq_iff_eq, hano]
  intro hEq
  rw [hEq] at hfs'
  rw [hfs] at hfs'
  exact Option.noConfusion hfs'

/-- C6 witness: year 1990 missing from the filesystem. -/
theorem C6_missing_year_has_no_rows_witness :
    (aggregate_csv (fun _ => none) [1990, 1991] []).filter (fun r => r.ano == 1990) = [] :=
  C6_missing_year_has_no_rows (fun _ => none) [1990, 1991] [] 1990 rfl

/-! ### Lemmas about the unified table and the animation frames -/

theorem unifiedRow_year (year : Int) (df : List ChartRow) (dataframes : List (List ChartRow))
    (top_n : Nat) (c : Int) : (unifiedRow year df dataframes top_n c).year = year := by
  unfold unifiedRow
  cases df.find? (fun r => r.classe == c) with
  | some row => rfl
  | none => cases findClassRow dataframes c <;> rfl

theorem unifiedRow_classe (year : Int) (df : List ChartRow) (dataframes : List (List ChartRow))
    (top_n : Nat) (c : Int) : (unifiedRow year df dataframes top_n c).classe = c := by
  unfold unifiedRow
  cases df.find? (fun r => r.classe == c) with
  | some row => rfl
  | none => cases findClassRow dataframes c <;> rfl

theorem mem_create_unified {dataframes : List (List ChartRow)} {years : List Int}
    {top_n : Nat} {u : URow} :
    u ∈ create_unified_dataframe dataframes years top_n ↔
      ∃ p ∈ years.zip dataframes, ∃ c ∈ allClasses dataframes top_n,
        u = unifiedRow p.1 p.2 dataframes top_n c := by
  simp only [create_unified_dataframe, List.mem_flatten, List.mem_map]
  constructor
  · rintro ⟨l, ⟨p, hp, rfl⟩, hu⟩
    rw [List.mem_map] at hu
    obtain ⟨c, hc, rfl⟩ := hu
    exact ⟨p, hp, c, hc, rfl⟩
  · rintro ⟨p, hp, c, hc, rfl⟩
    exact ⟨_, ⟨p, hp, rfl⟩, List.mem_map.mpr ⟨c, hc, rfl⟩⟩

theorem mem_allClasses {dataframes : List (List ChartRow)} {top_n : Nat} {c : Int} :
    c ∈ allClasses dataframes top_n ↔
      ∃ df ∈ dataframes, ∃ r ∈ df.take top_n, r.classe = c := by
  unfold allClasses
  rw [List.mem_dedup, List.mem_flatten]
  constructor
  · rintro ⟨l, hl, hc⟩
    rw [List.mem_map] at hl
    obtain ⟨df, hdf, rfl⟩ := hl
    rw [List.mem_map] at hc
    obtain ⟨r, hr, rfl⟩ := hc
    exact ⟨df, hdf, r, hr, rfl⟩
  · rintro ⟨df, hdf, r, hr, rfl⟩
    exact ⟨_, List.mem_map.mpr ⟨df, hdf, rfl⟩, List.mem_map.mpr ⟨r, hr, rfl⟩⟩

theorem findClassRow_eq_some_of_exists {dataframes : List (List ChartRow)} {c : Int}
    (h : ∃ df ∈ dataframes, ∃ r ∈ df, r.classe = c) :
    ∃ r0, findClassRow dataframes c = some r0 := by
  induction dataframes with
  | nil =>
    obtain ⟨df, hdf, _⟩ := h
    exact absurd hdf (List.not_mem_nil df)
  | cons df rest ih =>
    unfold findClassRow
    cases hf : df.find? (fun r => r.classe == c) with
    | some r => exact ⟨r, rfl⟩
    | none =>
      obtain ⟨df', hdf', r, hr, hrc⟩ := h
      rcases List.mem_cons.mp hdf' with rfl | hdf'
      · have hnone := List.find?_eq_none.mp hf r hr
        simp [hrc] at hnone
      · exact ih ⟨df', hdf', r, hr, hrc⟩

theorem mem_interpFrame {unified_df : List URow} {years : List Int} {q : ℚ} {b : URow}
    (h : b ∈ interpFrame unified_df years q) :
    ∃ u ∈ unified_df, b.year = u.year ∧ b.classe = u.classe ∧ b.nome_pt = u.nome_pt ∧
      b.cor_hex = u.cor_hex ∧ b.rank = u.rank := by
  simp only [interpFrame] at h
  by_cases hq : q ∈ years.map (fun y => (y : ℚ))
  · rw [if_pos hq] at h
    exact ⟨b, List.mem_of_mem_filter h, rfl, rfl, rfl, rfl, rfl⟩
  · rw [if_neg hq] at h
    rw [List.mem_map] at h
    obtain ⟨row, hrow, rfl⟩ := h
    refine ⟨row, List.mem_of_mem_filter hrow, ?_⟩
    cases hfind : (unified_df.filter (fun r => r.year == pyInt q + 1)).find?
        (fun s => s.classe == row.classe) with
    | some s => simp [hfind]
    | none => simp [hfind]

theorem mem_frameBars {unified_df : List URow} {years : List Int} {q : ℚ} {top_n : Nat}
    {b : URow} (h : b ∈ frameBars unified_df years q top_n) :
    b ∈ interpFrame unified_df years q := by
  unfold frameBars at h
  exact (List.perm_insertionSort _ _).mem_iff.mp (List.mem_of_mem_take h)

/-! ### Claim theorems: invariants across both paths -/

/-- C2: class code 0 never appears — not in the CSV tabulator's YearTable,
not in the chart tabulator's table, not in any aggregated CSV row, not in the
unified table built from zero-free per-year tables, and not among the bars of
any animation frame drawn from a zero-free unified table. -/
theorem C2_no_class_zero (raster : List Int) (year : Int) (legend_data : Legend)
    (fs : Int → Option (List Int)) (years : List Int)
    (dataframes : List (List ChartRow)) (top_n : Nat) (unified_df : List URow) (q : ℚ) :
    (∀ row ∈ process_raster_for_csv raster year legend_data, row.classe ≠ 0) ∧
    (∀ row ∈ read_raster_and_get_value_counts raster legend_data, row.classe ≠ 0) ∧
    (∀ row ∈ aggregate_csv fs years legend_data, row.classe ≠ 0) ∧
    ((∀ df ∈ dataframes, ∀ r ∈ df, r.classe ≠ 0) →
      ∀ u ∈ create_unified_dataframe dataframes years top_n, u.classe ≠ 0) ∧
    ((∀ u ∈ unified_df, u.classe ≠ 0) →
      ∀ b ∈ frameBars unified_df years q top_n, b.classe ≠ 0) := by
  refine ⟨?_, ?_, ?_, ?_, ?_⟩
  · intro row hrow
    obtain ⟨p, hp, rfl⟩ := mem_process_raster_for_csv.mp hrow
    exact (mem_validCounts.mp hp).2.2
  · intro row hrow
    obtain ⟨p, hp, rfl⟩ := mem_read_raster.mp hrow
    rw [chartRowOf_classe]
    exact (mem_validCounts.mp hp).2.2
  · intro row hrow
    obtain ⟨y, _, r, _, hmem⟩ := mem_aggregate_csv.mp hrow
    obtain ⟨p, hp, rfl⟩ := mem_process_raster_for_csv.mp hmem
    exact (mem_validCounts.mp hp).2.2
  · intro hdf u hu
    obtain ⟨pp, hpp, c, hc, rfl⟩ := mem_create_unified.mp hu
    rw [unifiedRow_classe]
    obtain ⟨df, hdfm, r, hr, rfl⟩ := mem_allClasses.mp hc
    exact hdf df hdfm r (List.mem_of_mem_take hr)
  · intro hu b hb
    obtain ⟨u, hum, _, hc, _⟩ := mem_interpFrame (mem_frameBars hb)
    rw [hc]
    exact hu u hum

/-- C2 witness: concrete instances of every conjunct, with the two
hypotheses about zero-free inputs discharged on concrete tables. -/
theorem C2_no_class_zero_witness :
    (∀ row ∈ process_raster_for_csv [0, 0, 3, 3, 3, 4] 2000 [], row.classe ≠ 0) ∧
    (∀ row ∈ read_raster_and_get_value_counts [0, 0, 3, 3, 3, 4] [], row.classe ≠ 0) ∧
    (∀ row ∈ aggregate_csv (fun _ => none) [2000, 2001] [], row.classe ≠ 0) ∧
    (∀ u ∈ create_unified_dataframe [[(⟨3, 1, 100, "Forest", "#006400"⟩ : ChartRow)]]
        [2000, 2001] 5, u.classe ≠ 0) ∧
    (∀ b ∈ frameBars [(⟨2000, 3, 100, "Forest", "#006400", 1⟩ : URow)] [2000, 2001] 2000 5,
      b.classe ≠ 0) := by
  have h := C2_no_class_zero [0, 0, 3, 3, 3, 4] 2000 [] (fun _ => none) [2000, 2001]
    [[(⟨3, 1, 100, "Forest", "#006400"⟩ : ChartRow)]] 5
    [(⟨2000, 3, 100, "Forest", "#006400", 1⟩ : URow)] 2000
  exact ⟨h.1, h.2.1, h.2.2.1, h.2.2.2.1 (by decide), h.2.2.2.2 (by decide)⟩

/-- C8: a failed or malformed legend read makes `load_legend` return the
empty mapping instead of aborting, and any class code whose string form is
absent from the legend mapping gets the placeholder display name
`"Classe {code} (não encontrada)"` and the gray color `#808080` in the chart
path's YearTable. -/
theorem C8_legend_failure_and_placeholders :
    load_legend none = [] ∧
    (∀ (legend_data : Legend) (raster : List Int) (u : ChartRow),
      u ∈ read_raster_and_get_value_counts raster legend_data →
      legend_data.lookup (toString u.classe) = none →
      u.nome_pt = "Classe " ++ toString u.classe ++ " (não encontrada)" ∧
      u.cor_hex = "#808080") := by
  refine ⟨rfl, ?_⟩
  intro legend_data raster u hu hlookup
  obtain ⟨p, hp, rfl⟩ := mem_read_raster.mp hu
  rw [chartRowOf_classe] at hlookup
  rw [chartRowOf_classe]
  unfold chartRowOf
  rw [hlookup]
  exact ⟨rfl, rfl⟩

/-- C8 witness: raster `[0, 4]` against the empty legend obtained from a
failed read; class 4 gets the placeholder name and gray color. -/
theorem C8_legend_failure_witness :
    load_legend none = [] ∧
    ((chartRowOf [] (totalValidPixels [0, 4]) (4, 1)).nome_pt =
        "Classe " ++ toString ((chartRowOf [] (totalValidPixels [0, 4]) (4, 1)).classe) ++
          " (não encontrada)" ∧
      (chartRowOf [] (totalValidPixels [0, 4]) (4, 1)).cor_hex = "#808080") := by
  have h := C8_legend_failure_and_placeholders
  refine ⟨h.1, h.2 [] [0, 4] (chartRowOf [] (totalValidPixels [0, 4]) (4, 1)) ?_ rfl⟩
  have heval : read_raster_and_get_value_counts [0, 4] [] =
      [chartRowOf [] (totalValidPixels [0, 4]) (4, 1)] := rfl
  rw [heval]
  exact List.mem_singleton.mpr rfl

theorem countP_create_unified (dataframes : List (List ChartRow)) (years : List Int)
    (top_n : Nat) (Y C : Int) :
    (create_unified_dataframe dataframes years top_n).countP
        (fun u => u.year == Y && u.classe == C) =
      ((years.zip dataframes).countP (fun p => p.1 == Y)) *
        ((allClasses dataframes top_n).count C) := by
  simp only [create_unified_dataframe]
  rw [List.count]
  generalize allClasses dataframes top_n = classes
  generalize years.zip dataframes = pairs
  induction pairs with
  | nil => simp
  | cons p ps ih =>
    simp only [List.map_cons, List.flatten_cons, List.countP_append, List.countP_cons, ih]
    rw [List.countP_map]
    by_cases hY : p.1 = Y
    · have h1 : ((fun u : URow => u.year == Y && u.classe == C) ∘
          unifiedRow p.1 p.2 dataframes top_n) = fun c => c == C := by
        funext c
        simp [Function.comp, unifiedRow_year, unifiedRow_classe, hY]
      rw [h1]
      simp [hY, Nat.add_mul, Nat.add_comm]
    · have h1 : ((fun u : URow => u.year == Y && u.classe == C) ∘
          unifiedRow p.1 p.2 dataframes top_n) = fun c => false := by
        funext c
        simp [Function.comp, unifiedRow_year, hY]
      rw [h1]
      simp [hY]

theorem zip_snd_unique {l1 : List Int} {l2 : List (List ChartRow)} {y : Int}
    {a b : List ChartRow} (hnd : l1.Nodup) (ha : (y, a) ∈ l1.zip l2)
    (hb : (y, b) ∈ l1.zip l2) : a = b := by
  induction l1 generalizing l2 with
  | nil => simp at ha
  | cons x xs ih =>
    cases l2 with
    | nil => simp at ha
    | cons z zs =>
      rw [List.zip_cons_cons] at ha hb
      rcases List.mem_cons.mp ha with h1 | h1 <;> rcases List.mem_cons.mp hb with h2 | h2
      · have e1 := (Prod.ext_iff.mp h1).2
        have e2 := (Prod.ext_iff.mp h2).2
        exact e1.trans e2.symm
      · have hyx : y = x := (Prod.ext_iff.mp h1).1
        have hymem : y ∈ xs := (List.of_mem_zip h2).1
        exact absurd (hyx ▸ hymem) (List.nodup_cons.mp hnd).1
      · have hyx : y = x := (Prod.ext_iff.mp h2).1
        have hymem : y ∈ xs := (List.of_mem_zip h1).1
        exact absurd (hyx ▸ hymem) (List.nodup_cons.mp hnd).1
      · exact ih (List.nodup_cons.mp hnd).2 h1 h2

theorem unifiedRow_absent {df : List ChartRow} {C : Int}
    (dataframes : List (List ChartRow)) (year : Int) (top_n : Nat)
    (habs : ∀ r ∈ df, r.classe ≠ C) (hC : C ∈ allClasses dataframes top_n) :
    ∃ r0, findClassRow dataframes C = some r0 ∧
      unifiedRow year df dataframes top_n C =
        { year := year, classe := C, porcent := 0, nome_pt := r0.nome_pt,
          cor_hex := r0.cor_hex, rank := top_n + 1 } := by
  have hfind : df.find? (fun r => r.classe == C) = none :=
    List.find?_eq_none.mpr (fun r hr => by simpa using habs r hr)
  obtain ⟨df', hdf', r, hr, hrc⟩ := mem_allClasses.mp hC
  obtain ⟨r0, hr0⟩ :=
    findClassRow_eq_some_of_exists ⟨df', hdf', r, List.mem_of_mem_take hr, hrc⟩
  refine ⟨r0, hr0, ?_⟩
  simp only [unifiedRow, hfind, hr0]

/-- C3: in the unified table built from matched `(year, table)` lists with
distinct years, every `(Y, C)` with `Y` a processed year and `C` in the class
union appears in exactly one row; and when `C` is absent from year `Y`'s
table, that row has percent 0, rank `top_n + 1`, and display name and color
copied from the first per-year table that contains `C` (the `findClassRow`
scan of the source's backfill loop). -/
theorem C3_unified_row_per_year_class (dataframes : List (List ChartRow)) (years : List Int)
    (top_n : Nat) (Y : Int) (df : List ChartRow) (C : Int)
    (hlen : years.length = dataframes.length) (hnd : years.Nodup)
    (hpair : (Y, df) ∈ years.zip dataframes) (hC : C ∈ allClasses dataframes top_n) :
    (create_unified_dataframe dataframes years top_n).countP
        (fun u => u.year == Y && u.classe == C) = 1 ∧
    ((∀ r ∈ df, r.classe ≠ C) →
      ∀ u ∈ create_unified_dataframe dataframes years top_n,
        u.year = Y → u.classe = C →
        ∃ r0, findClassRow dataframes C = some r0 ∧
          u.porcent = 0 ∧ u.rank = top_n + 1 ∧
          u.nome_pt = r0.nome_pt ∧ u.cor_hex = r0.cor_hex) := by
  constructor
  · rw [countP_create_unified]
    have hfst : (years.zip dataframes).map Prod.fst = years :=
      List.map_fst_zip years dataframes (le_of_eq hlen)
    have hYmem : Y ∈ years := (List.of_mem_zip hpair).1
    have h1 : (years.zip dataframes).countP (fun p => p.1 == Y) = 1 := by
      have hmap : ((years.zip dataframes).map Prod.fst).countP (fun y : Int => y == Y) =
          (years.zip dataframes).countP (fun p => p.1 == Y) :=
        List.countP_map (fun y : Int => y == Y) Prod.fst (years.zip dataframes)
      rw [hfst] at hmap
      rw [← hmap]
      exact List.count_eq_one_of_mem hnd hYmem
    have h2 : (allClasses dataframes top_n).count C = 1 := by
      have hnodupC : (allClasses dataframes top_n).Nodup := by
        unfold allClasses
        exact List.nodup_dedup _
      exact List.count_eq_one_of_mem hnodupC hC
    rw [h1, h2]
  · intro habs u hu hYu hCu
    obtain ⟨p, hp, c, hc, rfl⟩ := mem_create_unified.mp hu
    rw [unifiedRow_year] at hYu
    rw [unifiedRow_classe] at hCu
    have hp' : (Y, p.2) ∈ years.zip dataframes := by
      rw [← hYu]
      cases p
      exact hp
    have hdfp : p.2 = df := zip_snd_unique hnd hp' hpair
    have habs' : ∀ r ∈ p.2, r.classe ≠ c := by
      rw [hdfp, hCu]
      exact habs
    have hcAll : c ∈ allClasses dataframes top_n := by
      rw [hCu]
      exact hC
    obtain ⟨r0, hfind, hrow⟩ := unifiedRow_absent dataframes p.1 top_n habs' hcAll
    rw [hCu] at hfind
    refine ⟨r0, hfind, ?_, ?_, ?_, ?_⟩ <;> rw [hrow]

/-- C3 witness: two years, class 3 present only in the first year's table;
the `(2001, 3)` row is unique and zero-filled with backfilled name/color. -/
theorem C3_unified_row_witness :
    (create_unified_dataframe [[(⟨3, 1, 100, "Forest", "#006400"⟩ : ChartRow)], []]
        [2000, 2001] 5).countP (fun u => u.year == 2001 && u.classe == 3) = 1 ∧
    (∃ r0, findClassRow [[(⟨3, 1, 100, "Forest", "#006400"⟩ : ChartRow)], []] 3 = some r0 ∧
      (unifiedRow 2001 [] [[(⟨3, 1, 100, "Forest", "#006400"⟩ : ChartRow)], []] 5 3).porcent
          = 0 ∧
      (unifiedRow 2001 [] [[(⟨3, 1, 100, "Forest", "#006400"⟩ : ChartRow)], []] 5 3).rank
          = 5 + 1 ∧
      (unifiedRow 2001 [] [[(⟨3, 1, 100, "Forest", "#006400"⟩ : ChartRow)], []] 5 3).nome_pt
          = r0.nome_pt ∧
      (unifiedRow 2001 [] [[(⟨3, 1, 100, "Forest", "#006400"⟩ : ChartRow)], []] 5 3).cor_hex
          = r0.cor_hex) := by
  have h := C3_unified_row_per_year_class
    [[(⟨3, 1, 100, "Forest", "#006400"⟩ : ChartRow)], []] [2000, 2001] 5 2001 [] 3
    rfl (by decide) (by decide) (by decide)
  refine ⟨h.1, ?_⟩
  exact h.2 (by simp)
    (unifiedRow 2001 [] [[(⟨3, 1, 100, "Forest", "#006400"⟩ : ChartRow)], []] 5 3)
    (mem_create_unified.mpr ⟨(2001, []), by decide, 3, by decide, rfl⟩) rfl rfl

theorem validCounts_eq_nil_of_all_zero {raster : List Int} (h0 : ∀ v ∈ raster, v = 0) :
    validCounts raster = [] := by
  unfold validCounts
  rw [List.filter_eq_nil_iff]
  intro p hp
  have hz := h0 p.1 (mem_uniqueCounts.mp hp).1
  simp [hz]

theorem unifiedRow_nil_porcent (year : Int) (dataframes : List (List ChartRow))
    (top_n : Nat) (c : Int) : (unifiedRow year [] dataframes top_n c).porcent = 0 := by
  unfold unifiedRow
  cases findClassRow dataframes c <;> rfl

/-- C5 counterexample: a raster whose pixels are all the no-data value 0 does
not make the tabulation fail — both tabulators return successfully with an
empty table (the percentage list comprehension never runs, so no division by
zero is raised) — and in the chart path the empty table is still appended, so
the unified table is not rid of that year: it keeps zero-filled rows for it,
unlike a missing file of the CSV path. -/
theorem C5_counterexample :
    process_raster_for_csv [0, 0, 0] 2000 [] = [] ∧
    read_raster_and_get_value_counts [0, 0, 0] [] = [] ∧
    (chart_unified
        (fun y => if y = 2000 then some [0, 0, 0] else
          if y = 2001 then some [0, 3] else none)
        [2000, 2001] [] 5).countP (fun u => u.year == 2000) ≠ 0 := by
  refine ⟨rfl, rfl, ?_⟩
  decide

/-- C5 (amended): tabulating a raster with zero valid pixels does not raise:
it yields an empty YearTable (no percentage entries, hence no NaN or garbage)
in both scripts; the year then contributes no rows to the CSV output, but in
the chart path the year is not excluded — whenever the empty table is one of
the zipped `(year, table)` pairs, the unified table contains, for every class
of the class union, a zero-percent row carrying that year and class. -/
theorem C5_empty_raster_behavior (raster : List Int) (year : Int) (legend_data : Legend)
    (h0 : ∀ v ∈ raster, v = 0) :
    process_raster_for_csv raster year legend_data = [] ∧
    read_raster_and_get_value_counts raster legend_data = [] ∧
    (∀ (fs : Int → Option (List Int)) (years : List Int),
      fs year = some raster →
      (aggregate_csv fs years legend_data).filter (fun r => r.ano == year) = []) ∧
    (∀ (dataframes : List (List ChartRow)) (years : List Int) (top_n : Nat),
      (year, ([] : List ChartRow)) ∈ years.zip dataframes →
      ∀ c ∈ allClasses dataframes top_n,
        ∃ u ∈ create_unified_dataframe dataframes years top_n,
          u.year = year ∧ u.classe = c ∧ u.porcent = 0) := by
  have hvc := validCounts_eq_nil_of_all_zero h0
  have hcsv : process_raster_for_csv raster year legend_data = [] := by
    simp [process_raster_for_csv, hvc]
  refine ⟨hcsv, ?_, ?_, ?_⟩
  · simp [read_raster_and_get_value_counts, hvc]
  · intro fs years hfs
    rw [List.filter_eq_nil_iff]
    intro row hrow hbeq
    obtain ⟨y', hy', r, hfs', hmem⟩ := mem_aggregate_csv.mp hrow
    have hano : row.ano = y' := ano_of_mem_process hmem
    rw [beq_iff_eq, hano] at hbeq
    rw [hbeq, hfs] at hfs'
    have hr : r = raster := by
      exact (Option.some_inj.mp hfs').symm
    rw [hr, hbeq] at hmem
    rw [show process_raster_for_csv raster year legend_data = [] from hcsv] at hmem
    exact absurd hmem (List.not_mem_nil row)
  · intro dataframes years top_n hzip c hc
    exact ⟨unifiedRow year [] dataframes top_n c,
      mem_create_unified.mpr ⟨(year, []), hzip, c, hc, rfl⟩,
      unifiedRow_year year [] dataframes top_n c,
      unifiedRow_classe year [] dataframes top_n c,
      unifiedRow_nil_porcent year dataframes top_n c⟩

/-- C5 witness: the all-zero raster `[0, 0, 0]` for year 2000. -/
theorem C5_empty_raster_witness :
    process_raster_for_csv [0, 0, 0] 2000 [] = [] ∧
    read_raster_and_get_value_counts [0, 0, 0] [] = [] ∧
    (∀ (fs : Int → Option (List Int)) (years : List Int),
      fs 2000 = some [0, 0, 0] →
      (aggregate_csv fs years []).filter (fun r => r.ano == 2000) = []) ∧
    (∀ (dataframes : List (List ChartRow)) (years : List Int) (top_n : Nat),
      ((2000 : Int), ([] : List ChartRow)) ∈ years.zip dataframes →
      ∀ c ∈ allClasses dataframes top_n,
        ∃ u ∈ create_unified_dataframe dataframes years top_n,
          u.year = 2000 ∧ u.classe = c ∧ u.porcent = 0) :=
  C5_empty_raster_behavior [0, 0, 0] 2000 [] (by decide)

theorem find?_classe_map {l : List URow} {g : URow → URow} {c : Int}
    (hg : ∀ row, (g row).classe = row.classe) :
    (l.map g).find? (fun b => b.classe == c) =
      (l.find? (fun r => r.classe == c)).map g := by
  rw [List.find?_map]
  have hcomp : ((fun b : URow => b.classe == c) ∘ g) = fun r : URow => r.classe == c := by
    funext row
    simp [Function.comp, hg row]
  rw [hcomp]

/-- C7: integer-year frames (`alpha = 0`) copy that year's unified rows
exactly; a fractional frame time `q` with `alpha = q - int(q)` shows, for each
class found at the floor year and at the next year, exactly
`prev * (1 - alpha) + next * alpha`. -/
theorem C7_frame_interpolation (unified_df : List URow) (years : List Int) :
    (∀ q ∈ years.map (fun y => (y : ℚ)),
      interpFrame unified_df years q =
        unified_df.filter (fun r => decide ((r.year : ℚ) = q))) ∧
    (∀ (q : ℚ) (c : Int) (rp rn : URow),
      q ∉ years.map (fun y => (y : ℚ)) →
      (unified_df.filter (fun r => r.year == pyInt q)).find? (fun r => r.classe == c) =
        some rp →
      (unified_df.filter (fun r => r.year == pyInt q + 1)).find? (fun s => s.classe == c) =
        some rn →
      (interpFrame unified_df years q).find? (fun b => b.classe == c) =
        some { rp with porcent :=
          rp.porcent * (1 - (q - (pyInt q : ℚ))) + rn.porcent * (q - (pyInt q : ℚ)) }) := by
  constructor
  · intro q hq
    simp only [interpFrame, if_pos hq]
  · intro q c rp rn hq hrp hrn
    have hrpc : rp.classe = c := by
      have hp := List.find?_some hrp
      simpa using hp
    simp only [interpFrame, if_neg hq]
    rw [find?_classe_map (fun row => by
      cases hfind : (unified_df.filter (fun r => r.year == pyInt q + 1)).find?
          (fun s => s.classe == row.classe) <;> simp [hfind])]
    rw [hrp]
    simp only [Option.map_some']
    rw [hrpc, hrn]

/-- C7 witness: two unified rows for class 3 at years 0 and 1; the integer
frame at year 0 copies that year's rows, and the frame at time 1/2 shows
`10 * (1 - 1/2) + 20 * (1/2)`. -/
theorem C7_frame_interpolation_witness :
    interpFrame [(⟨0, 3, 10, "A", "#111111", 1⟩ : URow), ⟨1, 3, 20, "A", "#111111", 1⟩]
        [0, 1] ((0 : Int) : ℚ) =
      ([(⟨0, 3, 10, "A", "#111111", 1⟩ : URow), ⟨1, 3, 20, "A", "#111111", 1⟩].filter
        (fun r => decide ((r.year : ℚ) = ((0 : Int) : ℚ)))) ∧
    (interpFrame [(⟨0, 3, 10, "A", "#111111", 1⟩ : URow), ⟨1, 3, 20, "A", "#111111", 1⟩]
        [0, 1] (⟨1, 2, by decide, by decide⟩ : ℚ)).find? (fun b => b.classe == 3) =
      some { (⟨0, 3, 10, "A", "#111111", 1⟩ : URow) with porcent :=
        (⟨0, 3, 10, "A", "#111111", 1⟩ : URow).porcent *
            (1 - ((⟨1, 2, by decide, by decide⟩ : ℚ) -
              (pyInt (⟨1, 2, by decide, by decide⟩ : ℚ) : ℚ))) +
          (⟨1, 3, 20, "A", "#111111", 1⟩ : URow).porcent *
            ((⟨1, 2, by decide, by decide⟩ : ℚ) -
              (pyInt (⟨1, 2, by decide, by decide⟩ : ℚ) : ℚ)) } := by
  have h := C7_frame_interpolation
    [(⟨0, 3, 10, "A", "#111111", 1⟩ : URow), ⟨1, 3, 20, "A", "#111111", 1⟩] [0, 1]
  refine ⟨h.1 ((0 : Int) : ℚ) (by decide), ?_⟩
  exact h.2 (⟨1, 2, by decide, by decide⟩ : ℚ) 3 ⟨0, 3, 10, "A", "#111111", 1⟩
    ⟨1, 3, 20, "A", "#111111", 1⟩ (by decide) (by decide) (by decide)

/-- C10: a fractional frame is the floor year's row list with every column
except `porcent` (including the stored `year` value) copied unchanged, row by
row. -/
theorem C10_fractional_frame_copies_fields (unified_df : List URow) (years : List Int)
    (q : ℚ) (hq : q ∉ years.map (fun y => (y : ℚ))) :
    List.Forall₂ (fun b u : URow => b.year = u.year ∧ b.classe = u.classe ∧
        b.nome_pt = u.nome_pt ∧ b.cor_hex = u.cor_hex ∧ b.rank = u.rank)
      (interpFrame unified_df years q)
      (unified_df.filter (fun r => r.year == pyInt q)) := by
  simp only [interpFrame, if_neg hq]
  rw [List.forall₂_map_left_iff, List.forall₂_same]
  intro row hrow
  cases hfind : (unified_df.filter (fun r => r.year == pyInt q + 1)).find?
      (fun s => s.classe == row.classe) with
  | some s => simp [hfind]
  | none => simp [hfind]

/-- C10 witness: the frame at time 1/2 against the floor-year rows. -/
theorem C10_fractional_frame_witness :
    List.Forall₂ (fun b u : URow => b.year = u.year ∧ b.classe = u.classe ∧
        b.nome_pt = u.nome_pt ∧ b.cor_hex = u.cor_hex ∧ b.rank = u.rank)
      (interpFrame [(⟨0, 3, 10, "A", "#111111", 1⟩ : URow), ⟨1, 3, 20, "A", "#111111", 1⟩]
        [0, 1] (⟨1, 2, by decide, by decide⟩ : ℚ))
      ([(⟨0, 3, 10, "A", "#111111", 1⟩ : URow), ⟨1, 3, 20, "A", "#111111", 1⟩].filter
        (fun r => r.year == pyInt (⟨1, 2, by decide, by decide⟩ : ℚ))) :=
  C10_fractional_frame_copies_fields
    [(⟨0, 3, 10, "A", "#111111", 1⟩ : URow), ⟨1, 3, 20, "A", "#111111", 1⟩] [0, 1]
    (⟨1, 2, by decide, by decide⟩ : ℚ) (by decide)

end MapBiomas
